import Mathlib

/-! Colour and theme resolution of `src/tui/tui.go`.

Shallow embedding of the colour model, the process-wide palette, the theme
merge `initTheme`, the palette lookup `ColorIndex.Pair`, the attribute
mapper `attrFor`, the event-kind constants, `ColorPair.key` and the constructor
`NewFullscreenRenderer`.

Conventions of the embedding
* `Color` (Go `int32`) and `ColorIndex` (Go `int16`) are mathematical integers.
  None of the embedded functions performs arithmetic that could overflow, so every
  statement quantified over `Int` covers in particular every machine value.
* `*ColorTheme` is a pointer: `Option Ptr`, where `none` is `nil` and the pointed-to
  objects live in a heap `Ptr → ColorTheme`. Two pointers may be equal (aliasing).
* `Pallete` is the Go array `[ColUser]ColorPair`: a list whose length is `ColUser`.
  Reading or writing it at a run-time index outside `0 .. ColUser-1` is a Go panic,
  modelled by `none`.
* A function that can panic returns `Option`; `none` is the panic.
-/

namespace Tui

/-! ## Colours -/

/-- Go `type Color int32`. -/
abbrev Color := Int

/-- Go `type ColorIndex int16`. -/
abbrev ColorIndex := Int

def colUndefined : Color := -2
def colDefault : Color := -1

def colBlack : Color := 0
def colRed : Color := 1
def colGreen : Color := 2
def colYellow : Color := 3
def colBlue : Color := 4
def colMagenta : Color := 5
def colCyan : Color := 6
def colWhite : Color := 7

/-- Go `func (c Color) is24() bool { return c > 0 && (c&(1<<24)) > 0 }`.
The bitwise AND of a signed 32-bit value with the non-negative mask `1<<24` is the
two's-complement AND, which is what `Int.land` computes. -/
def Color.is24 (c : Color) : Bool :=
  decide (c > 0) && decide (Int.land c ((1 <<< 24 : Nat) : Int) > 0)

def ColDefault : ColorIndex := 0
def ColNormal : ColorIndex := 1
def ColPrompt : ColorIndex := 2
def ColMatch : ColorIndex := 3
def ColCurrent : ColorIndex := 4
def ColCurrentMatch : ColorIndex := 5
def ColSpinner : ColorIndex := 6
def ColInfo : ColorIndex := 7
def ColCursor : ColorIndex := 8
def ColSelected : ColorIndex := 9
def ColHeader : ColorIndex := 10
def ColBorder : ColorIndex := 11
def ColUser : ColorIndex := 12

/-- Go `type ColorPair struct { fg Color; bg Color; index ColorIndex }`. -/
structure ColorPair where
  fg : Color
  bg : Color
  index : ColorIndex
deriving DecidableEq, Repr

/-- Go `type ColorTheme struct`, thirteen colour slots. -/
structure ColorTheme where
  Fg : Color
  Bg : Color
  DarkBg : Color
  Prompt : Color
  Match : Color
  Current : Color
  CurrentMatch : Color
  Spinner : Color
  Info : Color
  Cursor : Color
  Selected : Color
  Header : Color
  Border : Color
deriving DecidableEq, Repr

/-! ## The palette array -/

/-- Go `var Pallete [ColUser]ColorPair`: an array of exactly `ColUser` pairs. -/
def Palette := { l : List ColorPair // l.length = ColUser.toNat }

instance : DecidableEq Palette := fun a b =>
  decidable_of_iff (a.val = b.val) Subtype.ext_iff.symm

/-- Read `Pallete[i]` at a run-time index; `none` is the out-of-range panic. -/
def Palette.index (P : Palette) (i : ColorIndex) : Option ColorPair :=
  if 0 ≤ i then P.val[i.toNat]? else none

/-- Write `Pallete[i] = v` at a run-time index; `none` is the out-of-range panic. -/
def Palette.assign (P : Palette) (i : ColorIndex) (v : ColorPair) : Option Palette :=
  if 0 ≤ i ∧ i < ColUser then
    some ⟨P.val.set i.toNat v, by rw [List.length_set]; exact P.property⟩
  else none

/-- Go `func (i ColorIndex) Pair() ColorPair`, reading the global `Pallete`. -/
def ColorIndex.Pair (Pallete : Palette) (i : ColorIndex) : Option ColorPair :=
  if i ≥ ColDefault && i < ColUser then
    Pallete.index i
  else
    Pallete.index ColDefault

/-! ## Theme objects behind pointers -/

/-- Address of a `ColorTheme` object; a Go `*ColorTheme` is `Option Ptr` (`none` = `nil`). -/
abbrev Ptr := Nat

/-- The theme objects reachable through pointers. -/
abbrev Heap := Ptr → ColorTheme

/-- Overwrite the object at address `p`. -/
def Heap.store (h : Heap) (p : Ptr) (v : ColorTheme) : Heap :=
  fun q => if q = p then v else h q

/-- The mutable state `initTheme` works on: the theme objects and the global `Pallete`. -/
structure State where
  heap : Heap
  Pallete : Palette

/-- Go `func EmptyTheme() *ColorTheme`: the object the returned pointer refers to. -/
def EmptyTheme : ColorTheme :=
  { Fg := colUndefined, Bg := colUndefined, DarkBg := colUndefined, Prompt := colUndefined,
    Match := colUndefined, Current := colUndefined, CurrentMatch := colUndefined,
    Spinner := colUndefined, Info := colUndefined, Cursor := colUndefined,
    Selected := colUndefined, Header := colUndefined, Border := colUndefined }

/-- The object `init()` stores behind `Default16`. -/
def Default16 : ColorTheme :=
  { Fg := colDefault, Bg := colDefault, DarkBg := colBlack, Prompt := colBlue,
    Match := colGreen, Current := colYellow, CurrentMatch := colGreen,
    Spinner := colGreen, Info := colWhite, Cursor := colRed,
    Selected := colMagenta, Header := colCyan, Border := colBlack }

/-- The object `init()` stores behind `Dark256`. -/
def Dark256 : ColorTheme :=
  { Fg := colDefault, Bg := colDefault, DarkBg := 236, Prompt := 110,
    Match := 108, Current := 254, CurrentMatch := 151,
    Spinner := 148, Info := 144, Cursor := 161,
    Selected := 168, Header := 109, Border := 59 }

/-- The object `init()` stores behind `Light256`. -/
def Light256 : ColorTheme :=
  { Fg := colDefault, Bg := colDefault, DarkBg := 251, Prompt := 25,
    Match := 66, Current := 237, CurrentMatch := 23,
    Spinner := 65, Info := 101, Cursor := 161,
    Selected := 168, Header := 31, Border := 145 }

/-! ## `initTheme` -/

/-- The closure `o` of `initTheme`: `b` unless it is `colUndefined`, then `a`. -/
def o (a : Color) (b : Color) : Color :=
  if b = colUndefined then a else b

/-- The indices visited by `for idx := lo; idx < hi; idx++`. -/
def idxRange (lo hi : ColorIndex) : List ColorIndex :=
  (List.range (hi - lo).toNat).map (fun k => lo + (k : Int))

/-- Go `func initTheme(theme *ColorTheme, baseTheme *ColorTheme, forceBlack bool)`.
Field reads and writes through `theme` and `baseTheme` go to the heap, in the order
of the source; dereferencing a `nil` `baseTheme` is a panic (`none`). -/
def initTheme (theme : Option Ptr) (baseTheme : Option Ptr) (forceBlack : Bool)
    (s : State) : Option State :=
  match theme with
  | none => do
    let P ← (idxRange ColDefault ColUser).foldlM
      (fun P idx => Palette.assign P idx ⟨colDefault, colDefault, idx⟩) s.Pallete
    pure { s with Pallete := P }
  | some t =>
    let h := s.heap
    let h := if forceBlack then h.store t { h t with Bg := colBlack } else h
    match baseTheme with
    | none => none
    | some b => do
      let h := h.store t { h t with Fg := o (h b).Fg (h t).Fg }
      let h := h.store t { h t with Bg := o (h b).Bg (h t).Bg }
      let h := h.store t { h t with DarkBg := o (h b).DarkBg (h t).DarkBg }
      let h := h.store t { h t with Prompt := o (h b).Prompt (h t).Prompt }
      let h := h.store t { h t with Match := o (h b).Match (h t).Match }
      let h := h.store t { h t with Current := o (h b).Current (h t).Current }
      let h := h.store t { h t with CurrentMatch := o (h b).CurrentMatch (h t).CurrentMatch }
      let h := h.store t { h t with Spinner := o (h b).Spinner (h t).Spinner }
      let h := h.store t { h t with Info := o (h b).Info (h t).Info }
      let h := h.store t { h t with Cursor := o (h b).Cursor (h t).Cursor }
      let h := h.store t { h t with Selected := o (h b).Selected (h t).Selected }
      let h := h.store t { h t with Header := o (h b).Header (h t).Header }
      let h := h.store t { h t with Border := o (h b).Border (h t).Border }
      let P := s.Pallete
      let P ← P.assign ColDefault ⟨colDefault, colDefault, ColDefault⟩
      let P ← P.assign ColNormal ⟨(h t).Fg, (h t).Bg, ColNormal⟩
      let P ← P.assign ColPrompt ⟨(h t).Prompt, (h t).Bg, ColPrompt⟩
      let P ← P.assign ColMatch ⟨(h t).Match, (h t).Bg, ColMatch⟩
      let P ← P.assign ColCurrent ⟨(h t).Current, (h t).DarkBg, ColCurrent⟩
      let P ← P.assign ColCurrentMatch ⟨(h t).CurrentMatch, (h t).DarkBg, ColCurrentMatch⟩
      let P ← P.assign ColSpinner ⟨(h t).Spinner, (h t).Bg, ColSpinner⟩
      let P ← P.assign ColInfo ⟨(h t).Info, (h t).Bg, ColInfo⟩
      let P ← P.assign ColCursor ⟨(h t).Cursor, (h t).DarkBg, ColCursor⟩
      let P ← P.assign ColSelected ⟨(h t).Selected, (h t).DarkBg, ColSelected⟩
      let P ← P.assign ColHeader ⟨(h t).Header, (h t).Bg, ColHeader⟩
      let P ← P.assign ColBorder ⟨(h t).Border, (h t).Bg, ColBorder⟩
      pure { heap := h, Pallete := P }

/-! ## `attrFor` -/

/-- Go `type Attr`: a set of attribute bits, here the natural number with these binary
digits (bitwise OR and AND act digit by digit, whatever the width or signedness of the
machine type). The type and the constants `Reverse` and `Underline` are declared by the
rendering backend, not in `tui.go`; the constants are parameters of `attrFor`. -/
abbrev Attr := Nat

/-- Go `func attrFor(color ColorIndex, attr Attr) Attr`. -/
def attrFor (Reverse Underline : Attr) (color : ColorIndex) (attr : Attr) : Attr :=
  if color = ColCurrent then attr ||| Reverse
  else if color = ColMatch then attr ||| Underline
  else if color = ColCurrentMatch then attr ||| Underline ||| Reverse
  else attr

/-! ## Event kinds -/

/-- The identifiers of the constant block `Rune = iota ... Alt0`, in source order. Every
line after the first repeats the expression `iota` implicitly. -/
def actionConsts : List String :=
  ["Rune", "CtrlA", "CtrlB", "CtrlC", "CtrlD", "CtrlE", "CtrlF", "CtrlG", "CtrlH",
   "Tab", "CtrlJ", "CtrlK", "CtrlL", "CtrlM", "CtrlN", "CtrlO", "CtrlP", "CtrlQ",
   "CtrlR", "CtrlS", "CtrlT", "CtrlU", "CtrlV", "CtrlW", "CtrlX", "CtrlY", "CtrlZ",
   "ESC", "Invalid", "Resize", "Mouse", "DoubleClick", "BTab", "BSpace", "Del", "PgUp",
   "PgDn", "Up", "Down", "Left", "Right", "Home", "End", "SLeft", "SRight", "F1", "F2",
   "F3", "F4", "F5", "F6", "F7", "F8", "F9", "F10", "F11", "F12", "AltEnter",
   "AltSpace", "AltSlash", "AltBS", "Alt0"]

/-- The identifiers of the second constant block (`// Reset iota`), in source order. -/
def altConsts : List String :=
  ["AltA", "AltB", "AltC", "AltD", "AltE", "AltF", "AltZ"]

/-- Go `iota` at the constant `name` of a `const ( ... )` block: the number of constant
specifications before it in the block. -/
def iotaAt (block : List String) (name : String) : Int :=
  ((block.indexOf name : Nat) : Int)

def Rune : Int := iotaAt actionConsts "Rune"
def CtrlA : Int := iotaAt actionConsts "CtrlA"
def CtrlB : Int := iotaAt actionConsts "CtrlB"
def CtrlC : Int := iotaAt actionConsts "CtrlC"
def CtrlD : Int := iotaAt actionConsts "CtrlD"
def CtrlE : Int := iotaAt actionConsts "CtrlE"
def CtrlF : Int := iotaAt actionConsts "CtrlF"
def CtrlG : Int := iotaAt actionConsts "CtrlG"
def CtrlH : Int := iotaAt actionConsts "CtrlH"
def Tab : Int := iotaAt actionConsts "Tab"
def CtrlJ : Int := iotaAt actionConsts "CtrlJ"
def CtrlK : Int := iotaAt actionConsts "CtrlK"
def CtrlL : Int := iotaAt actionConsts "CtrlL"
def CtrlM : Int := iotaAt actionConsts "CtrlM"
def CtrlN : Int := iotaAt actionConsts "CtrlN"
def CtrlO : Int := iotaAt actionConsts "CtrlO"
def CtrlP : Int := iotaAt actionConsts "CtrlP"
def CtrlQ : Int := iotaAt actionConsts "CtrlQ"
def CtrlR : Int := iotaAt actionConsts "CtrlR"
def CtrlS : Int := iotaAt actionConsts "CtrlS"
def CtrlT : Int := iotaAt actionConsts "CtrlT"
def CtrlU : Int := iotaAt actionConsts "CtrlU"
def CtrlV : Int := iotaAt actionConsts "CtrlV"
def CtrlW : Int := iotaAt actionConsts "CtrlW"
def CtrlX : Int := iotaAt actionConsts "CtrlX"
def CtrlY : Int := iotaAt actionConsts "CtrlY"
def CtrlZ : Int := iotaAt actionConsts "CtrlZ"
def ESC : Int := iotaAt actionConsts "ESC"
def Invalid : Int := iotaAt actionConsts "Invalid"
def Resize : Int := iotaAt actionConsts "Resize"
def Mouse : Int := iotaAt actionConsts "Mouse"
def DoubleClick : Int := iotaAt actionConsts "DoubleClick"
def BTab : Int := iotaAt actionConsts "BTab"
def BSpace : Int := iotaAt actionConsts "BSpace"
def Del : Int := iotaAt actionConsts "Del"
def PgUp : Int := iotaAt actionConsts "PgUp"
def PgDn : Int := iotaAt actionConsts "PgDn"
def Up : Int := iotaAt actionConsts "Up"
def Down : Int := iotaAt actionConsts "Down"
def Left : Int := iotaAt actionConsts "Left"
def Right : Int := iotaAt actionConsts "Right"
def Home : Int := iotaAt actionConsts "Home"
def End : Int := iotaAt actionConsts "End"
def SLeft : Int := iotaAt actionConsts "SLeft"
def SRight : Int := iotaAt actionConsts "SRight"
def F1 : Int := iotaAt actionConsts "F1"
def F2 : Int := iotaAt actionConsts "F2"
def F3 : Int := iotaAt actionConsts "F3"
def F4 : Int := iotaAt actionConsts "F4"
def F5 : Int := iotaAt actionConsts "F5"
def F6 : Int := iotaAt actionConsts "F6"
def F7 : Int := iotaAt actionConsts "F7"
def F8 : Int := iotaAt actionConsts "F8"
def F9 : Int := iotaAt actionConsts "F9"
def F10 : Int := iotaAt actionConsts "F10"
def F11 : Int := iotaAt actionConsts "F11"
def F12 : Int := iotaAt actionConsts "F12"
def AltEnter : Int := iotaAt actionConsts "AltEnter"
def AltSpace : Int := iotaAt actionConsts "AltSpace"
def AltSlash : Int := iotaAt actionConsts "AltSlash"
def AltBS : Int := iotaAt actionConsts "AltBS"
def Alt0 : Int := iotaAt actionConsts "Alt0"

def AltA : Int := Alt0 + (Char.toNat 'a' : Int) - (Char.toNat '0' : Int) + iotaAt altConsts "AltA"
def AltB : Int := Alt0 + (Char.toNat 'a' : Int) - (Char.toNat '0' : Int) + iotaAt altConsts "AltB"
def AltC : Int := Alt0 + (Char.toNat 'a' : Int) - (Char.toNat '0' : Int) + iotaAt altConsts "AltC"
def AltD : Int := Alt0 + (Char.toNat 'a' : Int) - (Char.toNat '0' : Int) + iotaAt altConsts "AltD"
def AltE : Int := Alt0 + (Char.toNat 'a' : Int) - (Char.toNat '0' : Int) + iotaAt altConsts "AltE"
def AltF : Int := Alt0 + (Char.toNat 'a' : Int) - (Char.toNat '0' : Int) + iotaAt altConsts "AltF"
def AltZ : Int := AltA + (Char.toNat 'z' : Int) - (Char.toNat 'a' : Int)

/-! ## `ColorPair` accessors and key -/

/-- Go `func NewColorPair(fg Color, bg Color) ColorPair`. -/
def NewColorPair (fg : Color) (bg : Color) : ColorPair :=
  ⟨fg, bg, ColUser⟩

/-- Go `func (p ColorPair) Fg() Color`. -/
def ColorPair.Fg (p : ColorPair) : Color := p.fg

/-- Go `func (p ColorPair) Bg() Color`. -/
def ColorPair.Bg (p : ColorPair) : Color := p.bg

/-- A mathematical integer wrapped to a signed machine integer of `bits` bits. -/
def wrapInt (bits : Nat) (x : Int) : Int :=
  (x + 2 ^ (bits - 1)) % 2 ^ bits - 2 ^ (bits - 1)

/-- Go `func (p ColorPair) key() int { return (int(p.Fg()) << 8) + int(p.Bg()) }`.
Go's `int` has 32 or 64 bits depending on the platform: `intBits`. A left shift of a
signed integer multiplies by a power of two and wraps, as does the addition. -/
def ColorPair.key (intBits : Nat) (p : ColorPair) : Int :=
  wrapInt intBits (wrapInt intBits (p.Fg * 2 ^ 8) + p.Bg)

/-! ## The full-screen renderer state -/

/-- Go `time.Time`, as the number of nanoseconds since the Unix epoch. -/
abbrev Time := Int

/-- Go `time.Duration`, a number of nanoseconds. -/
abbrev Duration := Int

/-- Go `time.Millisecond`. -/
def Millisecond : Duration := 1000000

/-- Go `time.Unix(sec, nsec)`: the instant `sec` seconds and `nsec` nanoseconds after the
Unix epoch. -/
def Unix (sec nsec : Int) : Time := sec * 1000000000 + nsec

/-- Go `const doubleClickDuration = 500 * time.Millisecond`. -/
def doubleClickDuration : Duration := 500 * Millisecond

/-- Go `type FullscreenRenderer struct`. -/
structure FullscreenRenderer where
  theme : Option Ptr
  mouse : Bool
  forceBlack : Bool
  prevDownTime : Time
  clickY : List Int
deriving DecidableEq, Repr

/-- Go `func NewFullscreenRenderer(theme *ColorTheme, forceBlack bool, mouse bool) Renderer`:
the renderer object behind the returned interface value. -/
def NewFullscreenRenderer (theme : Option Ptr) (forceBlack : Bool) (mouse : Bool) :
    FullscreenRenderer :=
  { theme := theme,
    mouse := mouse,
    forceBlack := forceBlack,
    prevDownTime := Unix 0 0,
    clickY := [] }

/-! ## Definitions used to state and prove the properties -/

/-- What the merge promises for one slot: the user's value `user` is kept whenever it is
not `colUndefined` (in particular when it is `colDefault`), and the base value `base` is
taken when it is `colUndefined`. -/
def SlotResolved (user base result : Color) : Prop :=
  (user ≠ colUndefined → result = user) ∧
  (user = colDefault → result = colDefault) ∧
  (user = colUndefined → result = base)

instance (user base result : Color) : Decidable (SlotResolved user base result) :=
  inferInstanceAs (Decidable (_ ∧ _ ∧ _))

/-- Bit 24 of the 32-bit two's-complement representation of `c` (`c % 2 ^ 32` is that
representation read as an unsigned number). -/
def bit24 (c : Color) : Bool :=
  Nat.testBit (c % 2 ^ 32).toNat 24

/-- A colour that is `colDefault` or a concrete (non-negative) colour value. -/
def Color.IsSet (c : Color) : Prop :=
  c = colDefault ∨ 0 ≤ c

instance (c : Color) : Decidable c.IsSet :=
  inferInstanceAs (Decidable (_ ∨ _))

/-- Every slot of the theme object lies in one of the three ranges of a `Color`:
`colUndefined`, `colDefault` or a non-negative colour value. -/
def ColorTheme.InRange (T : ColorTheme) : Prop :=
  colUndefined ≤ T.Fg ∧ colUndefined ≤ T.Bg ∧ colUndefined ≤ T.DarkBg ∧
  colUndefined ≤ T.Prompt ∧ colUndefined ≤ T.Match ∧ colUndefined ≤ T.Current ∧
  colUndefined ≤ T.CurrentMatch ∧ colUndefined ≤ T.Spinner ∧ colUndefined ≤ T.Info ∧
  colUndefined ≤ T.Cursor ∧ colUndefined ≤ T.Selected ∧ colUndefined ≤ T.Header ∧
  colUndefined ≤ T.Border

instance (T : ColorTheme) : Decidable T.InRange :=
  inferInstanceAs (Decidable (_ ∧ _ ∧ _ ∧ _ ∧ _ ∧ _ ∧ _ ∧ _ ∧ _ ∧ _ ∧ _ ∧ _ ∧ _))

/-- A palette whose entries are pairwise different: entry `k` is `(100 + k, 200 + k, k)`. -/
def samplePalette : Palette :=
  ⟨(List.range 12).map (fun k => ⟨100 + (k : Int), 200 + (k : Int), (k : Int)⟩), by decide⟩

/-- The zero-valued array `Pallete` holds at process start. -/
def zeroPalette : Palette := ⟨List.replicate 12 ⟨0, 0, 0⟩, by decide⟩

/-- A sample heap: the object at address 0 is `Default16`, the one at address 1 sets only
`Fg` (to `colDefault`) and `Prompt` (to 200), every other object is `EmptyTheme`. -/
def sampleHeap : Heap := fun p =>
  if p = 0 then Default16
  else if p = 1 then { EmptyTheme with Fg := colDefault, Prompt := 200 }
  else EmptyTheme

/-- A sample state: `sampleHeap` and the zero-valued palette. -/
def sampleState : State := ⟨sampleHeap, zeroPalette⟩

/-- Modelled from the spec: the double-click detector. The code that handles a mouse-down
event is not part of `tui.go`, which only declares the state it works on (`prevDownTime`,
`clickY`) and the window `doubleClickDuration`. On a mouse-down at instant `now` in row `y`:
if the elapsed time since the recorded mouse-down is within the window (does not exceed
it) and `y` is the recorded row, the event is flagged and the recorded state is reset to the sentinel of
`NewFullscreenRenderer`; otherwise `now` and `y` are recorded and the flag is unset.
The result is the flag and the renderer afterwards. -/
def mouseDown (r : FullscreenRenderer) (now : Time) (y : Int) : Bool × FullscreenRenderer :=
  if now - r.prevDownTime ≤ doubleClickDuration ∧ r.clickY = [y] then
    (true, { r with prevDownTime := Unix 0 0, clickY := [] })
  else
    (false, { r with prevDownTime := now, clickY := [y] })

/-- Modelled from the spec: the flags the detector gives to a sequence of mouse-down
events `(instant, row)`, handled in order from the renderer `r`. -/
def mouseDowns (r : FullscreenRenderer) : List (Time × Int) → List Bool
  | [] => []
  | (now, y) :: rest => (mouseDown r now y).1 :: mouseDowns (mouseDown r now y).2 rest

/-- Modelled from the spec: the code for alt+`c`, `c` a digit or a lower-case letter,
"computed by offset from a base alt-zero code". The computation is done by the key
decoder, which is not part of `tui.go`; `tui.go` declares `Alt0` and the named codes. -/
def altCode (c : Char) : Int :=
  Alt0 + ((Char.toNat c : Int) - (Char.toNat '0' : Int))

/-- The thirteen slots of a theme object, in declaration order. -/
def ColorTheme.slots (T : ColorTheme) : List Color :=
  [T.Fg, T.Bg, T.DarkBg, T.Prompt, T.Match, T.Current, T.CurrentMatch, T.Spinner, T.Info,
   T.Cursor, T.Selected, T.Header, T.Border]

/-- The digits and lower-case letters, the characters that have an alt code. -/
def altChars : List Char :=
  (List.range 10).map (fun k => Char.ofNat (Char.toNat '0' + k)) ++
  (List.range 26).map (fun k => Char.ofNat (Char.toNat 'a' + k))

/-- A user theme that asks for the terminal's default foreground on a background of 255
for the current line: `Current = colDefault`, `DarkBg = 255`, every other slot unset. -/
def currentLineTheme : ColorTheme :=
  { EmptyTheme with Current := colDefault, DarkBg := 255 }

/-- A state whose theme object at address 1 is `currentLineTheme` and whose base object at
address 0 is `Default16`. -/
def currentLineState : State :=
  ⟨fun p => if p = 1 then currentLineTheme else Default16, zeroPalette⟩

/-! ### Closed forms used in the proofs

`initTheme` above is the embedding of the source. The definitions below split it into
its three phases and give the value each phase computes; `initTheme_unfold` and
`initTheme_some_some` relate them to `initTheme`. -/

/-- Value-level effect of `if forceBlack { theme.Bg = colBlack }`. -/
def blacken (forceBlack : Bool) (T : ColorTheme) : ColorTheme :=
  if forceBlack then { T with Bg := colBlack } else T

/-- Slot-wise `o` of a base object and a theme object. -/
def mergeTheme (B T : ColorTheme) : ColorTheme :=
  { Fg := o B.Fg T.Fg, Bg := o B.Bg T.Bg, DarkBg := o B.DarkBg T.DarkBg,
    Prompt := o B.Prompt T.Prompt, Match := o B.Match T.Match,
    Current := o B.Current T.Current, CurrentMatch := o B.CurrentMatch T.CurrentMatch,
    Spinner := o B.Spinner T.Spinner, Info := o B.Info T.Info, Cursor := o B.Cursor T.Cursor,
    Selected := o B.Selected T.Selected, Header := o B.Header T.Header,
    Border := o B.Border T.Border }

/-- The twelve palette entries `initTheme` writes from a merged theme object. -/
def paletteOf (M : ColorTheme) : List ColorPair :=
  [⟨colDefault, colDefault, ColDefault⟩, ⟨M.Fg, M.Bg, ColNormal⟩, ⟨M.Prompt, M.Bg, ColPrompt⟩,
   ⟨M.Match, M.Bg, ColMatch⟩, ⟨M.Current, M.DarkBg, ColCurrent⟩,
   ⟨M.CurrentMatch, M.DarkBg, ColCurrentMatch⟩, ⟨M.Spinner, M.Bg, ColSpinner⟩,
   ⟨M.Info, M.Bg, ColInfo⟩, ⟨M.Cursor, M.DarkBg, ColCursor⟩, ⟨M.Selected, M.DarkBg, ColSelected⟩,
   ⟨M.Header, M.Bg, ColHeader⟩, ⟨M.Border, M.Bg, ColBorder⟩]

/-- One statement `theme.X = o(baseTheme.X, theme.X)` on the heap. -/
def mergeStep (upd : ColorTheme → Color → ColorTheme) (get : ColorTheme → Color)
    (t b : Ptr) (h : Heap) : Heap :=
  h.store t (upd (h t) (o (get (h b)) (get (h t))))

/-- The thirteen merge statements of `initTheme`, in source order. -/
def mergeAll (t b : Ptr) (h : Heap) : Heap :=
  mergeStep (fun T v => { T with Border := v }) ColorTheme.Border t b <|
  mergeStep (fun T v => { T with Header := v }) ColorTheme.Header t b <|
  mergeStep (fun T v => { T with Selected := v }) ColorTheme.Selected t b <|
  mergeStep (fun T v => { T with Cursor := v }) ColorTheme.Cursor t b <|
  mergeStep (fun T v => { T with Info := v }) ColorTheme.Info t b <|
  mergeStep (fun T v => { T with Spinner := v }) ColorTheme.Spinner t b <|
  mergeStep (fun T v => { T with CurrentMatch := v }) ColorTheme.CurrentMatch t b <|
  mergeStep (fun T v => { T with Current := v }) ColorTheme.Current t b <|
  mergeStep (fun T v => { T with Match := v }) ColorTheme.Match t b <|
  mergeStep (fun T v => { T with Prompt := v }) ColorTheme.Prompt t b <|
  mergeStep (fun T v => { T with DarkBg := v }) ColorTheme.DarkBg t b <|
  mergeStep (fun T v => { T with Bg := v }) ColorTheme.Bg t b <|
  mergeStep (fun T v => { T with Fg := v }) ColorTheme.Fg t b h

/-- The twelve palette assignments of `initTheme`, in source order. -/
def fillPalette (M : ColorTheme) (P : Palette) : Option Palette := do
  let P ← P.assign ColDefault ⟨colDefault, colDefault, ColDefault⟩
  let P ← P.assign ColNormal ⟨M.Fg, M.Bg, ColNormal⟩
  let P ← P.assign ColPrompt ⟨M.Prompt, M.Bg, ColPrompt⟩
  let P ← P.assign ColMatch ⟨M.Match, M.Bg, ColMatch⟩
  let P ← P.assign ColCurrent ⟨M.Current, M.DarkBg, ColCurrent⟩
  let P ← P.assign ColCurrentMatch ⟨M.CurrentMatch, M.DarkBg, ColCurrentMatch⟩
  let P ← P.assign ColSpinner ⟨M.Spinner, M.Bg, ColSpinner⟩
  let P ← P.assign ColInfo ⟨M.Info, M.Bg, ColInfo⟩
  let P ← P.assign ColCursor ⟨M.Cursor, M.DarkBg, ColCursor⟩
  let P ← P.assign ColSelected ⟨M.Selected, M.DarkBg, ColSelected⟩
  let P ← P.assign ColHeader ⟨M.Header, M.Bg, ColHeader⟩
  let P ← P.assign ColBorder ⟨M.Border, M.Bg, ColBorder⟩
  pure P

/-! ## Auxiliary lemmas -/

theorem initTheme_unfold (t b : Ptr) (f : Bool) (s : State) :
    initTheme (some t) (some b) f s =
      (fillPalette
        (mergeAll t b (if f then s.heap.store t { s.heap t with Bg := colBlack } else s.heap) t)
        s.Pallete).map
      (fun P => ⟨mergeAll t b
        (if f then s.heap.store t { s.heap t with Bg := colBlack } else s.heap), P⟩) := by
  rfl

theorem list_length_twelve {α : Type} (l : List α) (h : l.length = 12) :
    ∃ x0 x1 x2 x3 x4 x5 x6 x7 x8 x9 x10 x11,
      l = [x0, x1, x2, x3, x4, x5, x6, x7, x8, x9, x10, x11] := by
  match l, h with
  | [x0, x1, x2, x3, x4, x5, x6, x7, x8, x9, x10, x11], _ =>
    exact ⟨x0, x1, x2, x3, x4, x5, x6, x7, x8, x9, x10, x11, rfl⟩

theorem o_self (x : Color) : o x x = x := by
  unfold o; split <;> rfl

theorem mergeTheme_self (T : ColorTheme) : mergeTheme T T = T := by
  cases T; simp [mergeTheme, o_self]

theorem store_same (h : Heap) (p : Ptr) (v : ColorTheme) : (h.store p v) p = v := by
  simp [Heap.store]

theorem store_other (h : Heap) (p q : Ptr) (v : ColorTheme) (hq : q ≠ p) :
    (h.store p v) q = h q := by
  simp [Heap.store, hq]

theorem store_store (h : Heap) (p : Ptr) (v w : ColorTheme) :
    (h.store p v).store p w = h.store p w := by
  funext q; simp only [Heap.store]; split <;> rfl

theorem store_self (h : Heap) (p : Ptr) : h.store p (h p) = h := by
  funext q; simp only [Heap.store]; split
  · next e => rw [e]
  · rfl

theorem mergeStep_ne (upd : ColorTheme → Color → ColorTheme) (get : ColorTheme → Color)
    (t b : Ptr) (h : Heap) (T : ColorTheme) (hne : b ≠ t) :
    mergeStep upd get t b (h.store t T) = h.store t (upd T (o (get (h b)) (get T))) := by
  unfold mergeStep
  rw [store_same, store_other _ _ _ _ hne, store_store]

theorem mergeStep_eq (upd : ColorTheme → Color → ColorTheme) (get : ColorTheme → Color)
    (t : Ptr) (h : Heap) (T : ColorTheme) :
    mergeStep upd get t t (h.store t T) = h.store t (upd T (get T)) := by
  unfold mergeStep
  rw [store_same, store_store, o_self]

theorem mergeAll_ne (t b : Ptr) (h : Heap) (T : ColorTheme) (hne : b ≠ t) :
    mergeAll t b (h.store t T) = h.store t (mergeTheme (h b) T) := by
  unfold mergeAll
  simp only [mergeStep_ne _ _ _ _ _ _ hne, mergeTheme]

theorem mergeAll_eq (t : Ptr) (h : Heap) (T : ColorTheme) :
    mergeAll t t (h.store t T) = h.store t T := by
  unfold mergeAll
  simp only [mergeStep_eq]

theorem fillPalette_eq (M : ColorTheme) (P : Palette) :
    ∃ P', P'.val = paletteOf M ∧ fillPalette M P = some P' := by
  obtain ⟨l, hl⟩ := P
  obtain ⟨x0, x1, x2, x3, x4, x5, x6, x7, x8, x9, x10, x11, rfl⟩ := list_length_twelve l hl
  exact ⟨⟨paletteOf M, rfl⟩, rfl, rfl⟩

theorem o_o (a y : Color) : o a (o a y) = o a y := by
  unfold o; split_ifs <;> simp_all

theorem o_colBlack (a : Color) : o a colBlack = colBlack := by
  unfold o; rw [if_neg (by decide)]

theorem mergeTheme_blacken_self (f : Bool) (T : ColorTheme) :
    mergeTheme T (blacken f T) = blacken f T := by
  cases T; cases f <;> simp [mergeTheme, blacken, o_self, o_colBlack]

theorem blackenHeap (f : Bool) (h : Heap) (t : Ptr) :
    (if f then h.store t { h t with Bg := colBlack } else h) = h.store t (blacken f (h t)) := by
  cases f <;> simp [blacken, store_self]

theorem initTheme_some_some (t b : Ptr) (f : Bool) (s : State) :
    ∃ P', P'.val = paletteOf (mergeTheme (s.heap b) (blacken f (s.heap t))) ∧
      initTheme (some t) (some b) f s
        = some ⟨s.heap.store t (mergeTheme (s.heap b) (blacken f (s.heap t))), P'⟩ := by
  rw [initTheme_unfold, blackenHeap]
  have hm : mergeAll t b (s.heap.store t (blacken f (s.heap t)))
      = s.heap.store t (mergeTheme (s.heap b) (blacken f (s.heap t))) := by
    by_cases hbt : b = t
    · subst hbt
      rw [mergeAll_eq, mergeTheme_blacken_self]
    · exact mergeAll_ne t b s.heap _ hbt
  rw [hm, store_same]
  obtain ⟨P', hP', hfill⟩ := fillPalette_eq (mergeTheme (s.heap b) (blacken f (s.heap t))) s.Pallete
  exact ⟨P', hP', by rw [hfill]; rfl⟩

/-! ## The claims -/

theorem slotResolved_o (user base : Color) : SlotResolved user base (o base user) := by
  unfold SlotResolved o
  refine ⟨fun h => if_neg h, fun h => ?_, fun h => if_pos h⟩
  subst h; exact if_neg (by decide)

theorem store_merge_base (h : Heap) (t b : Ptr) :
    (h.store t (mergeTheme (h b) (h t))) b = h b := by
  by_cases hbt : b = t
  · subst hbt; rw [store_same, mergeTheme_self]
  · exact store_other _ _ _ _ hbt

/-- C1: for non-nil `theme` and `baseTheme`, `initTheme(theme, baseTheme, false)` returns,
every slot of the theme object is its original value when that was not `colUndefined`
(also when it was `colDefault`) and the base object's value when it was `colUndefined`,
and the base object is unchanged. -/
theorem initTheme_resolves_slots (s : State) (t b : Ptr) :
    ∃ s', initTheme (some t) (some b) false s = some s' ∧
      SlotResolved (s.heap t).Fg (s.heap b).Fg (s'.heap t).Fg ∧
      SlotResolved (s.heap t).Bg (s.heap b).Bg (s'.heap t).Bg ∧
      SlotResolved (s.heap t).DarkBg (s.heap b).DarkBg (s'.heap t).DarkBg ∧
      SlotResolved (s.heap t).Prompt (s.heap b).Prompt (s'.heap t).Prompt ∧
      SlotResolved (s.heap t).Match (s.heap b).Match (s'.heap t).Match ∧
      SlotResolved (s.heap t).Current (s.heap b).Current (s'.heap t).Current ∧
      SlotResolved (s.heap t).CurrentMatch (s.heap b).CurrentMatch (s'.heap t).CurrentMatch ∧
      SlotResolved (s.heap t).Spinner (s.heap b).Spinner (s'.heap t).Spinner ∧
      SlotResolved (s.heap t).Info (s.heap b).Info (s'.heap t).Info ∧
      SlotResolved (s.heap t).Cursor (s.heap b).Cursor (s'.heap t).Cursor ∧
      SlotResolved (s.heap t).Selected (s.heap b).Selected (s'.heap t).Selected ∧
      SlotResolved (s.heap t).Header (s.heap b).Header (s'.heap t).Header ∧
      SlotResolved (s.heap t).Border (s.heap b).Border (s'.heap t).Border ∧
      s'.heap b = s.heap b := by
  obtain ⟨P', -, h⟩ := initTheme_some_some t b false s
  refine ⟨_, h, ?_⟩
  simp only [store_same, blacken, mergeTheme, Bool.false_eq_true, if_false]
  refine ⟨slotResolved_o _ _, slotResolved_o _ _, slotResolved_o _ _, slotResolved_o _ _,
    slotResolved_o _ _, slotResolved_o _ _, slotResolved_o _ _, slotResolved_o _ _,
    slotResolved_o _ _, slotResolved_o _ _, slotResolved_o _ _, slotResolved_o _ _,
    slotResolved_o _ _, ?_⟩
  exact store_merge_base s.heap t b

/-- C1 at a concrete input: the theme at address 1 (only `Fg` and `Prompt` set) merged
over `Default16` at address 0. -/
theorem initTheme_resolves_slots_sample :
    (initTheme (some 1) (some 0) false sampleState).map (fun s' => (s'.heap 1, s'.heap 0))
      = some ({ Default16 with Fg := colDefault, Prompt := 200 }, Default16) := by
  decide

theorem initTheme_nil_eq (b : Option Ptr) (f : Bool) (s : State) :
    ∃ P', P'.val = (idxRange ColDefault ColUser).map (fun i => ⟨colDefault, colDefault, i⟩) ∧
      initTheme none b f s = some ⟨s.heap, P'⟩ := by
  obtain ⟨h, ⟨l, hl⟩⟩ := s
  obtain ⟨x0, x1, x2, x3, x4, x5, x6, x7, x8, x9, x10, x11, rfl⟩ := list_length_twelve l hl
  exact ⟨⟨(idxRange ColDefault ColUser).map (fun i => ⟨colDefault, colDefault, i⟩), rfl⟩,
    rfl, rfl⟩

/-- C2: with a `nil` theme, whatever `baseTheme` (even `nil`) and `forceBlack` are,
`initTheme` returns and `Pallete[i] = (colDefault, colDefault, i)` for every role index
`ColDefault <= i < ColUser`; no theme object is touched. -/
theorem initTheme_nil_palette (b : Option Ptr) (f : Bool) (s : State) :
    ∃ s', initTheme none b f s = some s' ∧ s'.heap = s.heap ∧
      ∀ i : ColorIndex, ColDefault ≤ i → i < ColUser →
        s'.Pallete.index i = some ⟨colDefault, colDefault, i⟩ := by
  obtain ⟨P', hP', h⟩ := initTheme_nil_eq b f s
  refine ⟨_, h, rfl, ?_⟩
  intro i h0 h1
  unfold ColDefault at h0
  unfold ColUser at h1
  simp only [Palette.index, hP']
  interval_cases i <;> rfl

/-- C2 at a concrete input: a `nil` theme over the base at address 0 with `forceBlack`. -/
theorem initTheme_nil_palette_sample :
    (initTheme none (some 0) true sampleState).map (fun s' => s'.Pallete.val)
      = some [⟨-1, -1, 0⟩, ⟨-1, -1, 1⟩, ⟨-1, -1, 2⟩, ⟨-1, -1, 3⟩, ⟨-1, -1, 4⟩, ⟨-1, -1, 5⟩,
              ⟨-1, -1, 6⟩, ⟨-1, -1, 7⟩, ⟨-1, -1, 8⟩, ⟨-1, -1, 9⟩, ⟨-1, -1, 10⟩, ⟨-1, -1, 11⟩] := by
  decide

theorem index_paletteOf (P : Palette) (M : ColorTheme) (hP : P.val = paletteOf M) :
    P.index ColDefault = some ⟨colDefault, colDefault, ColDefault⟩ ∧
    P.index ColNormal = some ⟨M.Fg, M.Bg, ColNormal⟩ ∧
    P.index ColPrompt = some ⟨M.Prompt, M.Bg, ColPrompt⟩ ∧
    P.index ColMatch = some ⟨M.Match, M.Bg, ColMatch⟩ ∧
    P.index ColCurrent = some ⟨M.Current, M.DarkBg, ColCurrent⟩ ∧
    P.index ColCurrentMatch = some ⟨M.CurrentMatch, M.DarkBg, ColCurrentMatch⟩ ∧
    P.index ColSpinner = some ⟨M.Spinner, M.Bg, ColSpinner⟩ ∧
    P.index ColInfo = some ⟨M.Info, M.Bg, ColInfo⟩ ∧
    P.index ColCursor = some ⟨M.Cursor, M.DarkBg, ColCursor⟩ ∧
    P.index ColSelected = some ⟨M.Selected, M.DarkBg, ColSelected⟩ ∧
    P.index ColHeader = some ⟨M.Header, M.Bg, ColHeader⟩ ∧
    P.index ColBorder = some ⟨M.Border, M.Bg, ColBorder⟩ := by
  simp only [Palette.index, hP]
  exact ⟨rfl, rfl, rfl, rfl, rfl, rfl, rfl, rfl, rfl, rfl, rfl, rfl⟩

/-- C3: for non-nil `theme` and `baseTheme` and either `forceBlack`, `initTheme` returns
and the palette is the fixed table over the merged theme object `M` (the object `theme`
points to after the call): `ColDefault = (colDefault, colDefault)`, `ColNormal = (M.Fg, M.Bg)`,
`ColPrompt = (M.Prompt, M.Bg)`, `ColMatch = (M.Match, M.Bg)`, `ColCurrent = (M.Current, M.DarkBg)`,
`ColCurrentMatch = (M.CurrentMatch, M.DarkBg)`, `ColSpinner = (M.Spinner, M.Bg)`,
`ColInfo = (M.Info, M.Bg)`, `ColCursor = (M.Cursor, M.DarkBg)`,
`ColSelected = (M.Selected, M.DarkBg)`, `ColHeader = (M.Header, M.Bg)`,
`ColBorder = (M.Border, M.Bg)`. -/
theorem initTheme_palette_table (s : State) (t b : Ptr) (f : Bool) :
    ∃ s', initTheme (some t) (some b) f s = some s' ∧
      s'.Pallete.index ColDefault = some ⟨colDefault, colDefault, ColDefault⟩ ∧
      s'.Pallete.index ColNormal = some ⟨(s'.heap t).Fg, (s'.heap t).Bg, ColNormal⟩ ∧
      s'.Pallete.index ColPrompt = some ⟨(s'.heap t).Prompt, (s'.heap t).Bg, ColPrompt⟩ ∧
      s'.Pallete.index ColMatch = some ⟨(s'.heap t).Match, (s'.heap t).Bg, ColMatch⟩ ∧
      s'.Pallete.index ColCurrent = some ⟨(s'.heap t).Current, (s'.heap t).DarkBg, ColCurrent⟩ ∧
      s'.Pallete.index ColCurrentMatch
        = some ⟨(s'.heap t).CurrentMatch, (s'.heap t).DarkBg, ColCurrentMatch⟩ ∧
      s'.Pallete.index ColSpinner = some ⟨(s'.heap t).Spinner, (s'.heap t).Bg, ColSpinner⟩ ∧
      s'.Pallete.index ColInfo = some ⟨(s'.heap t).Info, (s'.heap t).Bg, ColInfo⟩ ∧
      s'.Pallete.index ColCursor = some ⟨(s'.heap t).Cursor, (s'.heap t).DarkBg, ColCursor⟩ ∧
      s'.Pallete.index ColSelected
        = some ⟨(s'.heap t).Selected, (s'.heap t).DarkBg, ColSelected⟩ ∧
      s'.Pallete.index ColHeader = some ⟨(s'.heap t).Header, (s'.heap t).Bg, ColHeader⟩ ∧
      s'.Pallete.index ColBorder = some ⟨(s'.heap t).Border, (s'.heap t).Bg, ColBorder⟩ := by
  obtain ⟨P', hP', h⟩ := initTheme_some_some t b f s
  refine ⟨_, h, ?_⟩
  simp only [store_same]
  exact index_paletteOf P' _ hP'

/-- C3 at a concrete input: the theme at address 1 over `Default16` at address 0. -/
theorem initTheme_palette_table_sample :
    (initTheme (some 1) (some 0) false sampleState).map (fun s' => s'.Pallete.val)
      = some [⟨-1, -1, 0⟩, ⟨-1, -1, 1⟩, ⟨200, -1, 2⟩, ⟨2, -1, 3⟩, ⟨3, 0, 4⟩, ⟨2, 0, 5⟩,
              ⟨2, -1, 6⟩, ⟨7, -1, 7⟩, ⟨1, 0, 8⟩, ⟨5, 0, 9⟩, ⟨6, -1, 10⟩, ⟨0, -1, 11⟩] := by
  decide

theorem mergeTheme_blacken_Bg (B T : ColorTheme) :
    (mergeTheme B (blacken true T)).Bg = colBlack := by
  simp only [mergeTheme, blacken, if_true]
  exact o_colBlack _

/-- C4: for every non-nil theme (whatever its `Bg` slot), `initTheme(theme, Default16, true)`
returns and the background of every role fed by the theme's `Bg` slot (`ColNormal`,
`ColPrompt`, `ColMatch`, `ColSpinner`, `ColInfo`, `ColHeader`, `ColBorder`) is `colBlack`. -/
theorem initTheme_forceBlack_default16 (s : State) (t b : Ptr)
    (hB : s.heap b = Default16) :
    ∃ s', initTheme (some t) (some b) true s = some s' ∧
      ∀ i ∈ [ColNormal, ColPrompt, ColMatch, ColSpinner, ColInfo, ColHeader, ColBorder],
        (s'.Pallete.index i).map ColorPair.bg = some colBlack := by
  have key := initTheme_some_some t b true s
  rw [hB] at key
  obtain ⟨P', hP', h⟩ := key
  refine ⟨_, h, ?_⟩
  have hbg := mergeTheme_blacken_Bg Default16 (s.heap t)
  obtain ⟨-, h1, h2, h3, -, -, h6, h7, -, -, h10, h11⟩ := index_paletteOf P' _ hP'
  intro i hi
  simp only [List.mem_cons, List.mem_singleton, List.not_mem_nil, or_false] at hi
  rcases hi with rfl | rfl | rfl | rfl | rfl | rfl | rfl
  · rw [h1, Option.map_some', hbg]
  · rw [h2, Option.map_some', hbg]
  · rw [h3, Option.map_some', hbg]
  · rw [h6, Option.map_some', hbg]
  · rw [h7, Option.map_some', hbg]
  · rw [h10, Option.map_some', hbg]
  · rw [h11, Option.map_some', hbg]

/-- C4 applied to the theme at address 1 over `Default16` at address 0. -/
theorem initTheme_forceBlack_default16_witness :
    sampleState.heap 0 = Default16 ∧
    ∃ s', initTheme (some 1) (some 0) true sampleState = some s' ∧
      ∀ i ∈ [ColNormal, ColPrompt, ColMatch, ColSpinner, ColInfo, ColHeader, ColBorder],
        (s'.Pallete.index i).map ColorPair.bg = some colBlack :=
  ⟨rfl, initTheme_forceBlack_default16 sampleState 1 0 rfl⟩

/-- C5: `attrFor(r, a)` is `a | Reverse` for `ColCurrent`, `a | Underline` for `ColMatch`,
`a | Underline | Reverse` for `ColCurrentMatch`, and `a` for every other role index,
in range or not. -/
theorem attrFor_table (Reverse Underline : Attr) (r : ColorIndex) (a : Attr) :
    (r = ColCurrent → attrFor Reverse Underline r a = a ||| Reverse) ∧
    (r = ColMatch → attrFor Reverse Underline r a = a ||| Underline) ∧
    (r = ColCurrentMatch → attrFor Reverse Underline r a = a ||| Underline ||| Reverse) ∧
    (r ≠ ColCurrent → r ≠ ColMatch → r ≠ ColCurrentMatch →
      attrFor Reverse Underline r a = a) := by
  refine ⟨?_, ?_, ?_, ?_⟩
  · rintro rfl; rfl
  · rintro rfl; rfl
  · rintro rfl; rfl
  · intro h1 h2 h3
    unfold attrFor
    rw [if_neg h1, if_neg h2, if_neg h3]

/-- C5 at concrete bits (`Reverse = 4`, `Underline = 2`, base attribute `1`): the three
special roles and two other indices, one of them out of range. -/
theorem attrFor_table_sample :
    attrFor 4 2 ColCurrent 1 = 5 ∧ attrFor 4 2 ColMatch 1 = 3 ∧
    attrFor 4 2 ColCurrentMatch 1 = 7 ∧ attrFor 4 2 ColNormal 1 = 1 ∧
    attrFor 4 2 (-7) 1 = 1 := by
  decide

/-- C6: `attrFor(ColCurrentMatch, a)` has both the `Underline` and the `Reverse` bits set,
and every bit of `a` is still set in it. -/
theorem attrFor_currentMatch_bits (Reverse Underline : Attr) (a : Attr) :
    attrFor Reverse Underline ColCurrentMatch a &&& (Underline ||| Reverse)
      = Underline ||| Reverse ∧
    attrFor Reverse Underline ColCurrentMatch a &&& a = a := by
  have e : attrFor Reverse Underline ColCurrentMatch a = a ||| Underline ||| Reverse := rfl
  rw [e]
  constructor <;>
  · apply Nat.eq_of_testBit_eq
    intro i
    simp only [Nat.testBit_and, Nat.testBit_or]
    cases a.testBit i <;> cases Underline.testBit i <;> cases Reverse.testBit i <;> rfl

theorem index_isSome (P : Palette) (i : ColorIndex) (h0 : ColDefault ≤ i) (h1 : i < ColUser) :
    (P.index i).isSome = true := by
  have h0' : (0 : Int) ≤ i := h0
  have h1' : i < (12 : Int) := h1
  unfold Palette.index
  rw [if_pos h0']
  have hlen : i.toNat < P.val.length := by
    rw [P.property]
    exact (Int.toNat_lt h0').mpr h1'
  rw [List.getElem?_eq_getElem hlen]
  rfl

/-- C7: for every index `i`, negative or `>= ColUser` included, `i.Pair()` is `Pallete[i]`
when `ColDefault <= i < ColUser` and `Pallete[ColDefault]` otherwise, and the read of the
array it performs is in bounds (the call returns a pair). -/
theorem Pair_in_bounds (Pallete : Palette) (i : ColorIndex) :
    (ColDefault ≤ i ∧ i < ColUser → ColorIndex.Pair Pallete i = Pallete.index i) ∧
    (¬ (ColDefault ≤ i ∧ i < ColUser) →
      ColorIndex.Pair Pallete i = Pallete.index ColDefault) ∧
    (ColorIndex.Pair Pallete i).isSome = true := by
  by_cases h : ColDefault ≤ i ∧ i < ColUser
  · have e : ColorIndex.Pair Pallete i = Pallete.index i := by
      unfold ColorIndex.Pair
      simp [h.1, h.2]
    exact ⟨fun _ => e, fun h' => absurd h h', by rw [e]; exact index_isSome _ _ h.1 h.2⟩
  · have e : ColorIndex.Pair Pallete i = Pallete.index ColDefault := by
      unfold ColorIndex.Pair
      have : ¬ (i ≥ ColDefault ∧ i < ColUser) := h
      simp only [Bool.and_eq_true, decide_eq_true_eq, this, if_false]
    exact ⟨fun h' => absurd h' h, fun _ => e,
      by rw [e]; exact index_isSome _ _ (le_refl _) (by decide)⟩

/-- C7 at concrete indices: in range, negative, `ColUser` itself and the largest `int16`. -/
theorem Pair_in_bounds_sample :
    ColorIndex.Pair samplePalette 3 = some ⟨103, 203, 3⟩ ∧
    ColorIndex.Pair samplePalette 11 = some ⟨111, 211, 11⟩ ∧
    ColorIndex.Pair samplePalette (-1) = some ⟨100, 200, 0⟩ ∧
    ColorIndex.Pair samplePalette 12 = some ⟨100, 200, 0⟩ ∧
    ColorIndex.Pair samplePalette 32767 = some ⟨100, 200, 0⟩ ∧
    ColorIndex.Pair samplePalette (-32768) = some ⟨100, 200, 0⟩ := by
  decide

theorem and_two_pow_pos (n k : Nat) : 0 < n &&& 2 ^ k ↔ n.testBit k = true := by
  constructor
  · intro h
    by_contra hb
    have hz : n &&& 2 ^ k = 0 := by
      apply Nat.eq_of_testBit_eq
      intro i
      rw [Nat.testBit_and, Nat.testBit_two_pow, Nat.zero_testBit]
      by_cases hik : k = i
      · subst hik; simp [hb]
      · simp [hik]
    omega
  · intro h
    have hb : (n &&& 2 ^ k).testBit k = true := by
      rw [Nat.testBit_and, Nat.testBit_two_pow_self, h]; rfl
    rcases Nat.eq_zero_or_pos (n &&& 2 ^ k) with hz | hp
    · rw [hz, Nat.zero_testBit] at hb; exact absurd hb (by decide)
    · exact hp

theorem is24_natCast (n : Nat) (hn : 0 < n) : Color.is24 (n : Int) = n.testBit 24 := by
  have e : Int.land (n : Int) ((1 <<< 24 : Nat) : Int) = ((n &&& 2 ^ 24 : Nat) : Int) := rfl
  unfold Color.is24
  rw [e]
  have h1 : decide ((n : Int) > 0) = true := by
    simp only [gt_iff_lt, Int.natCast_pos, hn, decide_True]
  rw [h1, Bool.true_and]
  by_cases hb : n.testBit 24 = true
  · rw [hb]
    have := (and_two_pow_pos n 24).mpr hb
    simp only [gt_iff_lt, Int.natCast_pos, this, decide_True]
  · have hp : ¬ 0 < n &&& 2 ^ 24 := fun h => hb ((and_two_pow_pos n 24).mp h)
    simp only [Bool.not_eq_true] at hb
    rw [hb]
    simp only [gt_iff_lt, Int.natCast_pos, hp, decide_False]

theorem bit24_natCast (n : Nat) : bit24 (n : Int) = n.testBit 24 := by
  unfold bit24
  have e : ((n : Int) % 2 ^ 32).toNat = n % 2 ^ 32 := by
    have : ((n : Int) % 2 ^ 32) = ((n % 2 ^ 32 : Nat) : Int) := by push_cast; rfl
    rw [this, Int.toNat_natCast]
  rw [e, Nat.testBit_mod_two_pow]
  simp

/-- C8: `c.is24()` is true exactly when `c > 0` and bit 24 of `c` is set; it is false for
`colUndefined` and `colDefault`, whose two's-complement representations do have bit 24
set, and false for every indexed colour `0..255`. -/
theorem is24_iff (c : Color) :
    (c.is24 = true ↔ (c > 0 ∧ bit24 c = true)) ∧
    (Color.is24 colUndefined = false ∧ bit24 colUndefined = true) ∧
    (Color.is24 colDefault = false ∧ bit24 colDefault = true) ∧
    (0 ≤ c → c ≤ 255 → c.is24 = false) := by
  have main : c.is24 = true ↔ (c > 0 ∧ bit24 c = true) := by
    by_cases hc : c > 0
    · obtain ⟨n, rfl⟩ := Int.eq_ofNat_of_zero_le (le_of_lt hc)
      have hn : 0 < n := by exact_mod_cast hc
      rw [is24_natCast n hn, bit24_natCast]
      exact ⟨fun h => ⟨hc, h⟩, fun h => h.2⟩
    · constructor
      · intro h
        unfold Color.is24 at h
        simp only [hc, decide_False, Bool.false_and] at h
        exact absurd h (by decide)
      · intro h
        exact absurd h.1 hc
  refine ⟨main, ⟨by decide, by decide⟩, ⟨by decide, by decide⟩, ?_⟩
  intro h0 h1
  by_contra hne
  have ht : c.is24 = true := by
    cases h : c.is24
    · exact absurd h hne
    · rfl
  obtain ⟨hpos, hbit⟩ := main.mp ht
  obtain ⟨n, rfl⟩ := Int.eq_ofNat_of_zero_le h0
  rw [bit24_natCast] at hbit
  have hlt : n < 2 ^ 24 := by
    have : n ≤ 255 := by exact_mod_cast h1
    omega
  rw [Nat.testBit_lt_two_pow hlt] at hbit
  exact absurd hbit (by decide)

/-- C8 at concrete colours: `2^24 + 0x123456` is true colour, `2^25` (bit 24 clear) and the
sentinels are not. -/
theorem is24_iff_sample :
    Color.is24 (16777216 + 1193046) = true ∧ Color.is24 16777216 = true ∧
    Color.is24 33554432 = false ∧ Color.is24 255 = false ∧ Color.is24 0 = false ∧
    Color.is24 (-1) = false ∧ Color.is24 (-2) = false ∧ Color.is24 (-16777216) = false := by
  decide

theorem blacken_mergeTheme (f : Bool) (B T : ColorTheme) :
    blacken f (mergeTheme B (blacken f T)) = mergeTheme B (blacken f T) := by
  cases f
  · rfl
  · simp only [blacken, if_true, mergeTheme, o_colBlack]

theorem mergeTheme_idem (B T : ColorTheme) :
    mergeTheme B (mergeTheme B T) = mergeTheme B T := by
  simp only [mergeTheme, o_o]

/-- C9: resolving is idempotent. For non-nil `theme` and `baseTheme` and either
`forceBlack`, a first call of `initTheme` returns a state `s1`, and a second call with the
same pointers (so with the merged theme object) and the same `forceBlack` returns `s1`
again: no slot of any theme object and no entry of `Pallete` changes. -/
theorem initTheme_idempotent (s : State) (t b : Ptr) (f : Bool) :
    ∃ s1, initTheme (some t) (some b) f s = some s1 ∧
      initTheme (some t) (some b) f s1 = some s1 := by
  obtain ⟨P1, hP1, h1⟩ := initTheme_some_some t b f s
  refine ⟨_, h1, ?_⟩
  obtain ⟨P2, hP2, h2⟩ := initTheme_some_some t b f
    ⟨s.heap.store t (mergeTheme (s.heap b) (blacken f (s.heap t))), P1⟩
  rw [h2]
  simp only [store_same, store_store] at hP2 ⊢
  have hM : mergeTheme
      ((s.heap.store t (mergeTheme (s.heap b) (blacken f (s.heap t)))) b)
      (blacken f (mergeTheme (s.heap b) (blacken f (s.heap t))))
      = mergeTheme (s.heap b) (blacken f (s.heap t)) := by
    rw [blacken_mergeTheme]
    by_cases hbt : b = t
    · subst hbt
      rw [store_same, mergeTheme_self]
    · rw [store_other _ _ _ _ hbt, mergeTheme_idem]
  rw [hM] at hP2 ⊢
  have hP : P2 = P1 := Subtype.ext (hP2.trans hP1.symm)
  rw [hP]

/-- C9 at a concrete input: two calls with `forceBlack` on the theme at address 1 over
`Default16` at address 0 give the same theme object and palette as one call. -/
theorem initTheme_idempotent_sample :
    ((initTheme (some 1) (some 0) true sampleState).bind
        (initTheme (some 1) (some 0) true)).map (fun s' => (s'.heap 1, s'.Pallete))
      = (initTheme (some 1) (some 0) true sampleState).map
          (fun s' => (s'.heap 1, s'.Pallete)) := by
  decide

theorem o_ne_colUndefined (a b : Color) (ha : a ≠ colUndefined) : o a b ≠ colUndefined := by
  unfold o
  split
  · exact ha
  · assumption

theorem int_isSet_of_ne (b : Int) (h1 : -2 ≤ b) (h2 : b ≠ -2) : b = -1 ∨ 0 ≤ b := by
  omega

theorem o_isSet (a b : Color) (ha : a.IsSet) (hb : colUndefined ≤ b) : (o a b).IsSet := by
  unfold o
  split
  · exact ha
  · next hne =>
    unfold Color.IsSet
    exact int_isSet_of_ne b hb hne

theorem paletteOf_isSet (M : ColorTheme)
    (h : M.Fg.IsSet ∧ M.Bg.IsSet ∧ M.DarkBg.IsSet ∧ M.Prompt.IsSet ∧ M.Match.IsSet ∧
      M.Current.IsSet ∧ M.CurrentMatch.IsSet ∧ M.Spinner.IsSet ∧ M.Info.IsSet ∧
      M.Cursor.IsSet ∧ M.Selected.IsSet ∧ M.Header.IsSet ∧ M.Border.IsSet) :
    ∀ p ∈ paletteOf M, p.fg.IsSet ∧ p.bg.IsSet := by
  obtain ⟨h1, h2, h3, h4, h5, h6, h7, h8, h9, h10, h11, h12, h13⟩ := h
  have hd : colDefault.IsSet := Or.inl rfl
  intro p hp
  simp only [paletteOf, List.mem_cons, List.mem_singleton, List.not_mem_nil, or_false] at hp
  rcases hp with rfl | rfl | rfl | rfl | rfl | rfl | rfl | rfl | rfl | rfl | rfl | rfl <;>
    constructor <;> assumption

theorem paletteOf_ne_colUndefined (M : ColorTheme)
    (h : M.Fg ≠ colUndefined ∧ M.Bg ≠ colUndefined ∧ M.DarkBg ≠ colUndefined ∧
      M.Prompt ≠ colUndefined ∧ M.Match ≠ colUndefined ∧ M.Current ≠ colUndefined ∧
      M.CurrentMatch ≠ colUndefined ∧ M.Spinner ≠ colUndefined ∧ M.Info ≠ colUndefined ∧
      M.Cursor ≠ colUndefined ∧ M.Selected ≠ colUndefined ∧ M.Header ≠ colUndefined ∧
      M.Border ≠ colUndefined) :
    ∀ p ∈ paletteOf M, p.fg ≠ colUndefined ∧ p.bg ≠ colUndefined := by
  obtain ⟨h1, h2, h3, h4, h5, h6, h7, h8, h9, h10, h11, h12, h13⟩ := h
  have hd : colDefault ≠ colUndefined := by decide
  intro p hp
  simp only [paletteOf, List.mem_cons, List.mem_singleton, List.not_mem_nil, or_false] at hp
  rcases hp with rfl | rfl | rfl | rfl | rfl | rfl | rfl | rfl | rfl | rfl | rfl | rfl <;>
    constructor <;> assumption

theorem blacken_inRange (f : Bool) (T : ColorTheme) (h : T.InRange) :
    (blacken f T).InRange := by
  cases f
  · exact h
  · obtain ⟨h1, h2, h3, h4, h5, h6, h7, h8, h9, h10, h11, h12, h13⟩ := h
    exact ⟨h1, (by decide : colUndefined ≤ colBlack), h3, h4, h5, h6, h7, h8, h9, h10, h11, h12, h13⟩

theorem mergeTheme_ne_colUndefined (B T : ColorTheme)
    (hB : B = Default16 ∨ B = Dark256 ∨ B = Light256) :
    ∀ p ∈ paletteOf (mergeTheme B T), p.fg ≠ colUndefined ∧ p.bg ≠ colUndefined := by
  apply paletteOf_ne_colUndefined
  rcases hB with rfl | rfl | rfl <;>
    exact ⟨o_ne_colUndefined _ _ (by decide), o_ne_colUndefined _ _ (by decide),
      o_ne_colUndefined _ _ (by decide), o_ne_colUndefined _ _ (by decide),
      o_ne_colUndefined _ _ (by decide), o_ne_colUndefined _ _ (by decide),
      o_ne_colUndefined _ _ (by decide), o_ne_colUndefined _ _ (by decide),
      o_ne_colUndefined _ _ (by decide), o_ne_colUndefined _ _ (by decide),
      o_ne_colUndefined _ _ (by decide), o_ne_colUndefined _ _ (by decide),
      o_ne_colUndefined _ _ (by decide)⟩

theorem mergeTheme_isSet (B T : ColorTheme)
    (hB : B = Default16 ∨ B = Dark256 ∨ B = Light256) (hT : T.InRange) :
    ∀ p ∈ paletteOf (mergeTheme B T), p.fg.IsSet ∧ p.bg.IsSet := by
  apply paletteOf_isSet
  obtain ⟨h1, h2, h3, h4, h5, h6, h7, h8, h9, h10, h11, h12, h13⟩ := hT
  rcases hB with rfl | rfl | rfl <;>
    exact ⟨o_isSet _ _ (by decide) h1, o_isSet _ _ (by decide) h2,
      o_isSet _ _ (by decide) h3, o_isSet _ _ (by decide) h4,
      o_isSet _ _ (by decide) h5, o_isSet _ _ (by decide) h6,
      o_isSet _ _ (by decide) h7, o_isSet _ _ (by decide) h8,
      o_isSet _ _ (by decide) h9, o_isSet _ _ (by decide) h10,
      o_isSet _ _ (by decide) h11, o_isSet _ _ (by decide) h12,
      o_isSet _ _ (by decide) h13⟩

/-- C10: with a built-in base (`Default16`, `Dark256` or `Light256`), for every theme
pointer (`nil` or not) and either `forceBlack`, `initTheme` returns and no palette entry
has `colUndefined` as foreground or background; when the slots of the user theme are
`Color` values (`colUndefined`, `colDefault` or non-negative), every foreground and
background is `colDefault` or a non-negative colour. -/
theorem initTheme_no_colUndefined (s : State) (theme : Option Ptr) (b : Ptr) (f : Bool)
    (hB : s.heap b = Default16 ∨ s.heap b = Dark256 ∨ s.heap b = Light256) :
    ∃ s', initTheme theme (some b) f s = some s' ∧
      (∀ p ∈ s'.Pallete.val, p.fg ≠ colUndefined ∧ p.bg ≠ colUndefined) ∧
      ((∀ t, theme = some t → (s.heap t).InRange) →
        ∀ p ∈ s'.Pallete.val, p.fg.IsSet ∧ p.bg.IsSet) := by
  cases theme with
  | none =>
    obtain ⟨P', hP', h⟩ := initTheme_nil_eq (some b) f s
    refine ⟨_, h, ?_, fun _ => ?_⟩ <;>
    · show ∀ p ∈ P'.val, _
      rw [hP']
      decide
  | some t =>
    obtain ⟨P', hP', h⟩ := initTheme_some_some t b f s
    refine ⟨_, h, ?_, fun hT => ?_⟩
    · show ∀ p ∈ P'.val, _
      rw [hP']
      exact mergeTheme_ne_colUndefined _ _ hB
    · show ∀ p ∈ P'.val, _
      rw [hP']
      exact mergeTheme_isSet _ _ hB (blacken_inRange f _ (hT t rfl))

/-- C10 applied to the theme at address 1 over `Default16` at address 0. -/
theorem initTheme_no_colUndefined_witness :
    (sampleState.heap 0 = Default16 ∨ sampleState.heap 0 = Dark256 ∨
      sampleState.heap 0 = Light256) ∧
    ∃ s', initTheme (some 1) (some 0) false sampleState = some s' ∧
      (∀ p ∈ s'.Pallete.val, p.fg ≠ colUndefined ∧ p.bg ≠ colUndefined) ∧
      ((∀ t, some 1 = some t → (sampleState.heap t).InRange) →
        ∀ p ∈ s'.Pallete.val, p.fg.IsSet ∧ p.bg.IsSet) :=
  ⟨Or.inl rfl, initTheme_no_colUndefined sampleState (some 1) 0 false (Or.inl rfl)⟩

theorem mergeTheme_EmptyTheme (B : ColorTheme) : mergeTheme B EmptyTheme = B := by
  cases B; rfl

/-- C11: every slot of the object `EmptyTheme()` returns is `colUndefined`, and that object
is the identity of the merge: for non-nil `baseTheme`, `initTheme(EmptyTheme(), baseTheme,
false)` returns, the theme object afterwards equals the base object slot for slot, and the
palette is the fixed table read from the base object alone. -/
theorem EmptyTheme_merge_identity (s : State) (t b : Ptr) (hT : s.heap t = EmptyTheme) :
    (∀ c ∈ EmptyTheme.slots, c = colUndefined) ∧
    ∃ s', initTheme (some t) (some b) false s = some s' ∧
      s'.heap t = s.heap b ∧
      s'.heap b = s.heap b ∧
      s'.Pallete.val =
        [⟨colDefault, colDefault, ColDefault⟩,
         ⟨(s.heap b).Fg, (s.heap b).Bg, ColNormal⟩,
         ⟨(s.heap b).Prompt, (s.heap b).Bg, ColPrompt⟩,
         ⟨(s.heap b).Match, (s.heap b).Bg, ColMatch⟩,
         ⟨(s.heap b).Current, (s.heap b).DarkBg, ColCurrent⟩,
         ⟨(s.heap b).CurrentMatch, (s.heap b).DarkBg, ColCurrentMatch⟩,
         ⟨(s.heap b).Spinner, (s.heap b).Bg, ColSpinner⟩,
         ⟨(s.heap b).Info, (s.heap b).Bg, ColInfo⟩,
         ⟨(s.heap b).Cursor, (s.heap b).DarkBg, ColCursor⟩,
         ⟨(s.heap b).Selected, (s.heap b).DarkBg, ColSelected⟩,
         ⟨(s.heap b).Header, (s.heap b).Bg, ColHeader⟩,
         ⟨(s.heap b).Border, (s.heap b).Bg, ColBorder⟩] := by
  refine ⟨by decide, ?_⟩
  have key := initTheme_some_some t b false s
  have hM : mergeTheme (s.heap b) (blacken false (s.heap t)) = s.heap b := by
    rw [hT]; exact mergeTheme_EmptyTheme _
  rw [hM] at key
  obtain ⟨P', hP', h⟩ := key
  refine ⟨_, h, store_same _ _ _, ?_, hP'⟩
  show (s.heap.store t (s.heap b)) b = s.heap b
  by_cases hbt : b = t
  · subst hbt; exact store_same _ _ _
  · exact store_other _ _ _ _ hbt

/-- C11 applied to the empty theme at address 2 over `Default16` at address 0. -/
theorem EmptyTheme_merge_identity_witness :
    sampleState.heap 2 = EmptyTheme ∧
    (initTheme (some 2) (some 0) false sampleState).map (fun s' => s'.heap 2)
      = some Default16 :=
  ⟨rfl, by
    obtain ⟨-, s', h, h2, -, -⟩ := EmptyTheme_merge_identity sampleState 2 0 rfl
    rw [h, Option.map_some', h2]
    rfl⟩

set_option maxRecDepth 100000 in
/-- C12: the constants `Rune` to `Alt0` take the values 0 to 61 in declaration order (so
`Rune = 0`, `CtrlA = 1`, `Tab = 9`, `CtrlZ = 26`, `ESC = 27`, `AltBS = 60`, `Alt0 = 61`),
and all named event codes, `AltA` to `AltF` and `AltZ` included, are pairwise distinct. -/
theorem event_codes_distinct :
    [Rune, CtrlA, CtrlB, CtrlC, CtrlD, CtrlE, CtrlF, CtrlG, CtrlH, Tab, CtrlJ, CtrlK, CtrlL,
      CtrlM, CtrlN, CtrlO, CtrlP, CtrlQ, CtrlR, CtrlS, CtrlT, CtrlU, CtrlV, CtrlW, CtrlX, CtrlY,
      CtrlZ, ESC, Invalid, Resize, Mouse, DoubleClick, BTab, BSpace, Del, PgUp, PgDn, Up, Down,
      Left, Right, Home, End, SLeft, SRight, F1, F2, F3, F4, F5, F6, F7, F8, F9, F10, F11, F12,
      AltEnter, AltSpace, AltSlash, AltBS, Alt0]
      = (List.range 62).map (fun k => (k : Int)) ∧
    (Rune = 0 ∧ CtrlA = 1 ∧ Tab = 9 ∧ CtrlZ = 26 ∧ ESC = 27 ∧ AltBS = 60 ∧ Alt0 = 61) ∧
    [Rune, CtrlA, CtrlB, CtrlC, CtrlD, CtrlE, CtrlF, CtrlG, CtrlH, Tab, CtrlJ, CtrlK, CtrlL,
      CtrlM, CtrlN, CtrlO, CtrlP, CtrlQ, CtrlR, CtrlS, CtrlT, CtrlU, CtrlV, CtrlW, CtrlX, CtrlY,
      CtrlZ, ESC, Invalid, Resize, Mouse, DoubleClick, BTab, BSpace, Del, PgUp, PgDn, Up, Down,
      Left, Right, Home, End, SLeft, SRight, F1, F2, F3, F4, F5, F6, F7, F8, F9, F10, F11, F12,
      AltEnter, AltSpace, AltSlash, AltBS, Alt0,
      AltA, AltB, AltC, AltD, AltE, AltF, AltZ].Nodup := by
  refine ⟨by decide, by decide, by decide⟩

theorem altCode_injective (c d : Char) (h : altCode c = altCode d) : c = d := by
  unfold altCode at h
  have h1 : (Char.toNat c : Int) = (Char.toNat d : Int) := by omega
  have h2 : c.toNat = d.toNat := by exact_mod_cast h1
  exact Char.ext (UInt32.ext h2)

theorem altChars_eq : String.mk altChars = "0123456789abcdefghijklmnopqrstuvwxyz" := by
  decide

set_option maxRecDepth 100000 in
/-- C13: with the code of alt+`c` computed as `Alt0 + (c - '0')`, the named constants
agree with the formula (`AltA = Alt0 + 49`, `AltB` to `AltF` the next five values,
`AltZ = AltA + 25 = Alt0 + 74`), the map from `c` to its code is injective, and for every
digit or lower-case letter the code is at least `Alt0`, hence greater than each of the codes
`Rune` to `AltBS`. -/
theorem altCode_offsets :
    (∀ c : Char, altCode c = Alt0 + ((Char.toNat c : Int) - (Char.toNat '0' : Int))) ∧
    (AltA = altCode 'a' ∧ AltB = altCode 'b' ∧ AltC = altCode 'c' ∧ AltD = altCode 'd' ∧
      AltE = altCode 'e' ∧ AltF = altCode 'f' ∧ AltZ = altCode 'z') ∧
    (AltA = Alt0 + 49 ∧ AltB = AltA + 1 ∧ AltC = AltA + 2 ∧ AltD = AltA + 3 ∧
      AltE = AltA + 4 ∧ AltF = AltA + 5 ∧ AltZ = AltA + 25 ∧ AltZ = Alt0 + 74) ∧
    (∀ c d : Char, altCode c = altCode d → c = d) ∧
    (∀ c ∈ altChars, Alt0 ≤ altCode c ∧
      ∀ k ∈ [Rune, CtrlA, CtrlB, CtrlC, CtrlD, CtrlE, CtrlF, CtrlG, CtrlH, Tab, CtrlJ, CtrlK,
        CtrlL, CtrlM, CtrlN, CtrlO, CtrlP, CtrlQ, CtrlR, CtrlS, CtrlT, CtrlU, CtrlV, CtrlW,
        CtrlX, CtrlY, CtrlZ, ESC, Invalid, Resize, Mouse, DoubleClick, BTab, BSpace, Del, PgUp,
        PgDn, Up, Down, Left, Right, Home, End, SLeft, SRight, F1, F2, F3, F4, F5, F6, F7, F8,
        F9, F10, F11, F12, AltEnter, AltSpace, AltSlash, AltBS], k < altCode c) := by
  refine ⟨fun _ => rfl, by decide, by decide, altCode_injective, by decide⟩

/-- C14: every slot of `Default16` is `colDefault` or a basic colour `0..7`, every slot of
`Dark256` and of `Light256` is `colDefault` or an index `0..255`, and no slot of the three
is `colUndefined` or a true-colour value. -/
theorem builtin_themes_literal :
    (∀ c ∈ Default16.slots, c = colDefault ∨ (colBlack ≤ c ∧ c ≤ colWhite)) ∧
    (∀ c ∈ Dark256.slots, c = colDefault ∨ (0 ≤ c ∧ c ≤ 255)) ∧
    (∀ c ∈ Light256.slots, c = colDefault ∨ (0 ≤ c ∧ c ≤ 255)) ∧
    (∀ T ∈ [Default16, Dark256, Light256], ∀ c ∈ T.slots,
      c ≠ colUndefined ∧ Color.is24 c = false) := by
  decide

/-- C15: in the detector modelled from the spec, a mouse-down is flagged exactly when it
comes within 500 ms of the recorded mouse-down in the recorded row; a flagged event resets
the recorded state, any other records its instant and row. From a fresh renderer, with
clicks at `t0`, `t0 + 300 ms`, `t0 + 400 ms` in row 5 the second is flagged and the third is
not; a click in row 7 100 ms after one in row 5 is not flagged; a click in row 5 600 ms
after one in row 5 is not flagged. -/
theorem mouseDown_double_click (r : FullscreenRenderer) (now : Time) (y : Int) :
    ((mouseDown r now y).1 = true ↔
      (now - r.prevDownTime ≤ 500 * Millisecond ∧ r.clickY = [y])) ∧
    ((mouseDown r now y).1 = true →
      (mouseDown r now y).2.prevDownTime = (NewFullscreenRenderer r.theme r.forceBlack
          r.mouse).prevDownTime ∧
      (mouseDown r now y).2.clickY = []) ∧
    ((mouseDown r now y).1 = false →
      (mouseDown r now y).2.prevDownTime = now ∧ (mouseDown r now y).2.clickY = [y]) ∧
    (∀ (theme : Option Ptr) (forceBlack mouse : Bool) (t0 : Time),
      mouseDowns (NewFullscreenRenderer theme forceBlack mouse)
          [(t0, 5), (t0 + 300 * Millisecond, 5), (t0 + 400 * Millisecond, 5)]
        = [false, true, false] ∧
      mouseDowns (NewFullscreenRenderer theme forceBlack mouse)
          [(t0, 5), (t0 + 100 * Millisecond, 7)] = [false, false] ∧
      mouseDowns (NewFullscreenRenderer theme forceBlack mouse)
          [(t0, 5), (t0 + 600 * Millisecond, 5)] = [false, false]) := by
  refine ⟨?_, ?_, ?_, ?_⟩
  · unfold mouseDown
    split
    · next h => exact ⟨fun _ => h, fun _ => rfl⟩
    · next h => exact ⟨fun h' => Bool.noConfusion h', fun h' => absurd h' h⟩
  · unfold mouseDown
    split
    · intro _; exact ⟨rfl, rfl⟩
    · intro h'; exact Bool.noConfusion h'
  · unfold mouseDown
    split
    · intro h'; exact Bool.noConfusion h'
    · intro _; exact ⟨rfl, rfl⟩
  · intro theme forceBlack mouse t0
    simp [mouseDowns, mouseDown, NewFullscreenRenderer, doubleClickDuration, Millisecond, Unix]

/-- C15 on the three click sequences of the spec, with instants counted from the epoch. -/
theorem mouseDown_double_click_sample :
    mouseDowns (NewFullscreenRenderer none false true)
        [(0, 5), (300 * Millisecond, 5), (400 * Millisecond, 5)] = [false, true, false] ∧
    mouseDowns (NewFullscreenRenderer none false true)
        [(0, 5), (100 * Millisecond, 7)] = [false, false] ∧
    mouseDowns (NewFullscreenRenderer none false true)
        [(0, 5), (600 * Millisecond, 5)] = [false, false] := by
  decide

/-- C16: `NewFullscreenRenderer(theme, forceBlack, mouse)` returns a renderer whose `theme`,
`forceBlack` and `mouse` fields are the arguments, whose `prevDownTime` is the Unix epoch
(0 s, 0 ns) and whose `clickY` is empty; `doubleClickDuration` is 500 ms. -/
theorem NewFullscreenRenderer_fields (theme : Option Ptr) (forceBlack mouse : Bool) :
    (NewFullscreenRenderer theme forceBlack mouse).theme = theme ∧
    (NewFullscreenRenderer theme forceBlack mouse).forceBlack = forceBlack ∧
    (NewFullscreenRenderer theme forceBlack mouse).mouse = mouse ∧
    (NewFullscreenRenderer theme forceBlack mouse).prevDownTime = Unix 0 0 ∧
    (NewFullscreenRenderer theme forceBlack mouse).prevDownTime = 0 ∧
    (NewFullscreenRenderer theme forceBlack mouse).clickY = [] ∧
    doubleClickDuration = 500 * Millisecond ∧
    doubleClickDuration = 500000000 := by
  refine ⟨rfl, rfl, rfl, rfl, ?_, rfl, rfl, by decide⟩
  show Unix 0 0 = 0
  decide

/-- C16 at a concrete call, with the arguments `forceBlack` and `mouse` different. -/
theorem NewFullscreenRenderer_fields_sample :
    NewFullscreenRenderer (some 3) true false
      = { theme := some 3, mouse := false, forceBlack := true, prevDownTime := 0,
          clickY := [] } := by
  decide

theorem Pair_of_inRange (P : Palette) (i : ColorIndex) (h0 : ColDefault ≤ i)
    (h1 : i < ColUser) : ColorIndex.Pair P i = P.index i := by
  unfold ColorIndex.Pair
  simp [h0, h1]

theorem Pair_of_outRange (P : Palette) (i : ColorIndex) (h : ¬ (ColDefault ≤ i ∧ i < ColUser)) :
    ColorIndex.Pair P i = P.index ColDefault := by
  unfold ColorIndex.Pair
  have h' : ¬ (i ≥ ColDefault ∧ i < ColUser) := h
  simp only [Bool.and_eq_true, decide_eq_true_eq, h', if_false]

theorem index_own_position (P : Palette) (l : List ColorPair) (hP : P.val = l)
    (hl : l.map ColorPair.index = [0, 1, 2, 3, 4, 5, 6, 7, 8, 9, 10, 11])
    (i : ColorIndex) (h0 : ColDefault ≤ i) (h1 : i < ColUser) :
    (P.index i).map ColorPair.index = some i := by
  have h0' : (0 : Int) ≤ i := h0
  have h1' : i < (12 : Int) := h1
  unfold Palette.index
  rw [if_pos h0', hP, ← List.getElem?_map, hl]
  interval_cases i <;> rfl

/-- C17: after any call of `initTheme` that returns (a non-nil theme needs a non-nil base,
or the call panics), every palette entry carries its own position as role index and
`Pallete[ColDefault]` is `(colDefault, colDefault, ColDefault)`; so `i.Pair().index = i`
for every index in range and `i.Pair() = (colDefault, colDefault, ColDefault)` for every
index out of range. -/
theorem initTheme_index_invariant (s : State) (theme base : Option Ptr) (f : Bool)
    (hcall : theme.isSome = true → base.isSome = true) :
    ∃ s', initTheme theme base f s = some s' ∧
      (∀ i : ColorIndex, ColDefault ≤ i → i < ColUser →
        (s'.Pallete.index i).map ColorPair.index = some i) ∧
      s'.Pallete.index ColDefault = some ⟨colDefault, colDefault, ColDefault⟩ ∧
      (∀ i : ColorIndex, ColDefault ≤ i → i < ColUser →
        (ColorIndex.Pair s'.Pallete i).map ColorPair.index = some i) ∧
      (∀ i : ColorIndex, ¬ (ColDefault ≤ i ∧ i < ColUser) →
        ColorIndex.Pair s'.Pallete i = some ⟨colDefault, colDefault, ColDefault⟩) := by
  have main : ∃ s', initTheme theme base f s = some s' ∧
      s'.Pallete.val.map ColorPair.index = [0, 1, 2, 3, 4, 5, 6, 7, 8, 9, 10, 11] ∧
      s'.Pallete.index ColDefault = some ⟨colDefault, colDefault, ColDefault⟩ := by
    cases theme with
    | none =>
      obtain ⟨P', hP', h⟩ := initTheme_nil_eq base f s
      refine ⟨_, h, ?_, ?_⟩
      · show P'.val.map ColorPair.index = _
        rw [hP']; rfl
      · show P'.index ColDefault = _
        simp only [Palette.index, hP']; rfl
    | some t =>
      cases base with
      | none => exact absurd (hcall rfl) (by decide)
      | some b =>
        obtain ⟨P', hP', h⟩ := initTheme_some_some t b f s
        refine ⟨_, h, ?_, ?_⟩
        · show P'.val.map ColorPair.index = _
          rw [hP']; rfl
        · exact (index_paletteOf P' _ hP').1
  obtain ⟨s', h, hidx, hdef⟩ := main
  refine ⟨s', h, ?_, hdef, ?_, ?_⟩
  · intro i h0 h1
    exact index_own_position _ _ rfl hidx i h0 h1
  · intro i h0 h1
    rw [Pair_of_inRange _ _ h0 h1]
    exact index_own_position _ _ rfl hidx i h0 h1
  · intro i hi
    rw [Pair_of_outRange _ _ hi]
    exact hdef

/-- C17 applied to the theme at address 1 over `Default16` at address 0, with `forceBlack`. -/
theorem initTheme_index_invariant_witness :
    ((some 1 : Option Ptr).isSome = true → (some 0 : Option Ptr).isSome = true) ∧
    ∃ s', initTheme (some 1) (some 0) true sampleState = some s' ∧
      (∀ i : ColorIndex, ColDefault ≤ i → i < ColUser →
        (s'.Pallete.index i).map ColorPair.index = some i) ∧
      s'.Pallete.index ColDefault = some ⟨colDefault, colDefault, ColDefault⟩ ∧
      (∀ i : ColorIndex, ColDefault ≤ i → i < ColUser →
        (ColorIndex.Pair s'.Pallete i).map ColorPair.index = some i) ∧
      (∀ i : ColorIndex, ¬ (ColDefault ≤ i ∧ i < ColUser) →
        ColorIndex.Pair s'.Pallete i = some ⟨colDefault, colDefault, ColDefault⟩) :=
  ⟨fun _ => rfl, initTheme_index_invariant sampleState (some 1) (some 0) true (fun _ => rfl)⟩

/-- C17 at a concrete input: the role indices after a call, and two out-of-range lookups. -/
theorem initTheme_index_invariant_sample :
    (initTheme (some 1) (some 0) true sampleState).map
        (fun s' => (s'.Pallete.val.map ColorPair.index,
          ColorIndex.Pair s'.Pallete 12, ColorIndex.Pair s'.Pallete (-3)))
      = some ([0, 1, 2, 3, 4, 5, 6, 7, 8, 9, 10, 11],
          some ⟨-1, -1, 0⟩, some ⟨-1, -1, 0⟩) := by
  decide

theorem paletteOf_forceBlack (B T : ColorTheme) :
    paletteOf (mergeTheme B (blacken true T))
      = (paletteOf (mergeTheme B (blacken false T))).map (fun q =>
          if q.index ∈ [ColNormal, ColPrompt, ColMatch, ColSpinner, ColInfo, ColHeader,
              ColBorder]
          then { q with bg := colBlack } else q) := by
  simp only [paletteOf, mergeTheme, blacken, if_true, Bool.false_eq_true, if_false,
    o_colBlack, List.map_cons, List.map_nil]
  rfl

/-- C18: `forceBlack` changes only what the `Bg` slot feeds. From the same state, the calls
`initTheme(theme, base, true)` and `initTheme(theme, base, false)` both return, and at
every role index their palettes have the same foreground and the same index; they have the
same background at `ColDefault`, `ColCurrent`, `ColCurrentMatch`, `ColCursor` and
`ColSelected`, and two entries can differ only at `ColNormal`, `ColPrompt`, `ColMatch`,
`ColSpinner`, `ColInfo`, `ColHeader` or `ColBorder`. -/
theorem initTheme_forceBlack_frame (s : State) (t b : Ptr) :
    ∃ s1 s2, initTheme (some t) (some b) true s = some s1 ∧
      initTheme (some t) (some b) false s = some s2 ∧
      ∀ i : ColorIndex, ColDefault ≤ i → i < ColUser →
        ∃ p q, s1.Pallete.index i = some p ∧ s2.Pallete.index i = some q ∧
          p.fg = q.fg ∧ p.index = q.index ∧
          (i ∈ [ColDefault, ColCurrent, ColCurrentMatch, ColCursor, ColSelected] →
            p.bg = q.bg) ∧
          (p ≠ q → i ∈ [ColNormal, ColPrompt, ColMatch, ColSpinner, ColInfo, ColHeader,
            ColBorder]) := by
  obtain ⟨P1, hP1, h1⟩ := initTheme_some_some t b true s
  obtain ⟨P2, hP2, h2⟩ := initTheme_some_some t b false s
  refine ⟨_, _, h1, h2, ?_⟩
  intro i h0 h1'
  have h0' : (0 : Int) ≤ i := h0
  have h1'' : i < (12 : Int) := h1'
  rw [paletteOf_forceBlack] at hP1
  simp only [Palette.index, hP1, hP2, paletteOf]
  interval_cases i <;> refine ⟨_, _, rfl, rfl, rfl, rfl, ?_, ?_⟩
  all_goals first
    | (intro _; rfl)
    | (intro h; exact absurd h (by decide))
    | (intro _; decide)
    | (intro h; exact absurd rfl h)

/-- C18 at a concrete input: over `Default16`, `forceBlack` turns the seven backgrounds fed
by `Bg` from `colDefault` into `colBlack` and leaves every other field alone. -/
theorem initTheme_forceBlack_frame_sample :
    (initTheme (some 1) (some 0) true sampleState).map (fun s' => s'.Pallete.val)
      = some [⟨-1, -1, 0⟩, ⟨-1, 0, 1⟩, ⟨200, 0, 2⟩, ⟨2, 0, 3⟩, ⟨3, 0, 4⟩, ⟨2, 0, 5⟩,
              ⟨2, 0, 6⟩, ⟨7, 0, 7⟩, ⟨1, 0, 8⟩, ⟨5, 0, 9⟩, ⟨6, 0, 10⟩, ⟨0, 0, 11⟩] ∧
    (initTheme (some 1) (some 0) false sampleState).map (fun s' => s'.Pallete.val)
      = some [⟨-1, -1, 0⟩, ⟨-1, -1, 1⟩, ⟨200, -1, 2⟩, ⟨2, -1, 3⟩, ⟨3, 0, 4⟩, ⟨2, 0, 5⟩,
              ⟨2, -1, 6⟩, ⟨7, -1, 7⟩, ⟨1, 0, 8⟩, ⟨5, 0, 9⟩, ⟨6, -1, 10⟩, ⟨0, -1, 11⟩] := by
  decide

/-- C19: `key()` is not injective on pairs whose colours are `colDefault` or `0..255`.
On both widths of Go's `int`, the pair (`colBlack` on `colDefault`) and the pair
(`colDefault` on 255) have the same key, -1, though their foregrounds and backgrounds
differ. -/
theorem ColorPair_key_collision :
    ColorPair.key 64 ⟨colBlack, colDefault, ColBorder⟩ = -1 ∧
    ColorPair.key 64 ⟨colDefault, 255, ColCurrent⟩ = -1 ∧
    ColorPair.key 32 ⟨colBlack, colDefault, ColBorder⟩ = -1 ∧
    ColorPair.key 32 ⟨colDefault, 255, ColCurrent⟩ = -1 ∧
    ColorPair.Fg ⟨colBlack, colDefault, ColBorder⟩
      ≠ ColorPair.Fg ⟨colDefault, 255, ColCurrent⟩ ∧
    ColorPair.Bg ⟨colBlack, colDefault, ColBorder⟩
      ≠ ColorPair.Bg ⟨colDefault, 255, ColCurrent⟩ := by
  decide

/-- C19, the two pairs in one palette: `initTheme` on `currentLineTheme` over `Default16`
fills `ColCurrent` with (`colDefault` on 255) and `ColBorder` with (`colBlack` on
`colDefault`), and the keys of the two entries are equal. -/
theorem ColorPair_key_collision_in_palette :
    (initTheme (some 1) (some 0) false currentLineState).map (fun s' =>
        (ColorIndex.Pair s'.Pallete ColCurrent, ColorIndex.Pair s'.Pallete ColBorder,
          (ColorIndex.Pair s'.Pallete ColCurrent).map (ColorPair.key 64),
          (ColorIndex.Pair s'.Pallete ColBorder).map (ColorPair.key 64)))
      = some (some ⟨-1, 255, 4⟩, some ⟨0, -1, 11⟩, some (-1), some (-1)) := by
  decide

/-- C20: last write wins. Two calls of `initTheme` with the same theme objects, pointers
and `forceBlack`, started from different palettes, both return (a non-nil theme needs a
non-nil base, or the call panics) and end with the same palette and the same theme
objects: the palette before the call has no influence. -/
theorem initTheme_last_write_wins (h : Heap) (P1 P2 : Palette) (theme base : Option Ptr)
    (f : Bool) (hcall : theme.isSome = true → base.isSome = true) :
    ∃ s1 s2, initTheme theme base f ⟨h, P1⟩ = some s1 ∧
      initTheme theme base f ⟨h, P2⟩ = some s2 ∧
      s1.Pallete = s2.Pallete ∧ s1.heap = s2.heap := by
  cases theme with
  | none =>
    obtain ⟨Q1, hQ1, h1⟩ := initTheme_nil_eq base f ⟨h, P1⟩
    obtain ⟨Q2, hQ2, h2⟩ := initTheme_nil_eq base f ⟨h, P2⟩
    exact ⟨_, _, h1, h2, Subtype.ext (hQ1.trans hQ2.symm), rfl⟩
  | some t =>
    cases base with
    | none => exact absurd (hcall rfl) (by decide)
    | some b =>
      obtain ⟨Q1, hQ1, h1⟩ := initTheme_some_some t b f ⟨h, P1⟩
      obtain ⟨Q2, hQ2, h2⟩ := initTheme_some_some t b f ⟨h, P2⟩
      exact ⟨_, _, h1, h2, Subtype.ext (hQ1.trans hQ2.symm), rfl⟩

/-- C20 applied to the zero-valued palette and `samplePalette`: the theme at address 1
over `Default16` at address 0 gives the same palette from both. -/
theorem initTheme_last_write_wins_witness :
    ((some 1 : Option Ptr).isSome = true → (some 0 : Option Ptr).isSome = true) ∧
    zeroPalette ≠ samplePalette ∧
    ∃ s1 s2, initTheme (some 1) (some 0) false ⟨sampleHeap, zeroPalette⟩ = some s1 ∧
      initTheme (some 1) (some 0) false ⟨sampleHeap, samplePalette⟩ = some s2 ∧
      s1.Pallete = s2.Pallete ∧ s1.heap = s2.heap :=
  ⟨fun _ => rfl, by decide,
    initTheme_last_write_wins sampleHeap zeroPalette samplePalette (some 1) (some 0) false
      (fun _ => rfl)⟩

end Tui
